import Mathlib

/-!
A shallow embedding of the `moro` structured-concurrency scope engine
(`src/scope.rs` and `src/body.rs`).

The engine is single-threaded and cooperative: the join driver (`Body::poll`)
polls the scope body, then drives the task set (`Scope::poll_jobs`).  We model
a task (a Rust future boxed into the scope) as a program in a small inductive
language `Fut` whose effects are exactly the ones the scope exposes to its
tasks: suspend (`Poll::Pending`), spawn (push an adapter future into the
`enqueued` queue and obtain a fresh result channel), set the cancellation slot
(`Scope::cancel`'s write-once store), receive on a result channel (awaiting a
spawn handle), drop a spawn handle, and abort (`panic!`).

Values flowing through channels and the cancellation slot are drawn from a
single universe `Val` (naturals, strings, `Ok`/`Err` wrappers, unit), which
lets one model cover the concrete scenarios of the spec without type indexing.

Machine-level notes on fidelity:
* `FuturesUnordered` is modelled as an ordered list polled once per pass;
  a future that completes is removed and its value is sent on its channel,
  mirroring the adapter `async move { let v = future.await; tx.send(v).await }`.
* The `while let Some(()) = ready!(futures.poll_next(cx))` loop in
  `Scope::poll_jobs` checks the cancellation slot after each observed
  completion and jumps back to the top of the outer loop (which takes the
  slot) when it is populated; `drivePass` reproduces exactly that control
  flow, including leaving the not-yet-polled tail of the pass untouched.
* `async_channel::bounded(1)` is modelled by `ChanSt`: `open` (no send yet),
  `sent v` (value delivered, sender since dropped), `consumed` (receiver took
  the value), `closedNoSend` (sender dropped without sending: produced only by
  `Scope::clear` during teardown), `rxDropped` (receiver handle dropped; a
  send onto such a channel is the ignored `let _ = tx.send(v)`).
-/

namespace Moro

/-- The universe of values carried by channels, the cancellation slot, and
scope results. -/
inductive Val : Type where
  | unit : Val
  | nat : Nat → Val
  | str : String → Val
  | ok : Val → Val
  | err : Val → Val
deriving DecidableEq, Repr

/-- State of one `async_channel::bounded(1)` result channel. -/
inductive ChanSt : Type where
  | open : ChanSt
  | sent : Val → ChanSt
  | consumed : ChanSt
  | closedNoSend : ChanSt
  | rxDropped : ChanSt
deriving DecidableEq, Repr

/-- Deep embedding of the futures that run inside a moro scope.  `spawnE` and
`recvE` carry continuations so that user code can use the fresh channel id
(resp. the received value); `termSet` is the synchronous slot store performed
by `Scope::cancel` before it returns its never-resolving handle. -/
inductive Fut : Type where
  | ret : Val → Fut
  | yield : Fut → Fut
  | termSet : Val → Fut → Fut
  | spawnE : Fut → (Nat → Fut) → Fut
  | recvE : Nat → (Val → Fut) → Fut
  | dropH : Nat → Fut → Fut
  | panic : Fut

/-- A job stored in the task set: the adapter future plus the id of the
result channel its completion value is sent on. -/
structure Job : Type where
  code : Fut
  chan : Nat

/-- The shared scope state (`Scope` in `scope.rs`): the `futures` collection
(`active`), the `enqueued` queue (`incoming`), the write-once cancellation
slot, and the states of all result channels allocated so far (channel ids are
indices into `chans`; a fresh channel is appended at the end). -/
structure ScopeSt : Type where
  active : List Job
  incoming : List Job
  cancelled : Option Val
  chans : List ChanSt

/-- The scope state a fresh scope starts with. -/
def emptyScope : ScopeSt := ⟨[], [], none, []⟩

/-- Look up a channel's state. -/
def chanAt (s : ScopeSt) (ch : Nat) : Option ChanSt := s.chans[ch]?

/-- Overwrite a channel's state. -/
def setChan (s : ScopeSt) (ch : Nat) (c : ChanSt) : ScopeSt :=
  { s with chans := s.chans.set ch c }

/-- Slot update of `Scope::cancel`: store the value only if the slot is empty
(first write wins). -/
def setCancelled (s : ScopeSt) (v : Val) : ScopeSt :=
  match s.cancelled with
  | none => { s with cancelled := some v }
  | some _ => s

/-- Allocate a fresh result channel and push the spawned adapter future onto
the `enqueued` queue, as `Scope::spawn` does. -/
def spawnJob (s : ScopeSt) (child : Fut) : ScopeSt :=
  { s with
    chans := s.chans ++ [ChanSt.open],
    incoming := s.incoming ++ [⟨child, s.chans.length⟩] }

/-- Result of polling one future. -/
inductive PollRes : Type where
  | ready : Val → PollRes
  | pending : Fut → PollRes
  | panicked : PollRes

/-- Poll one future against the scope state.  Mirrors what one
`Future::poll` call on a task of the scope does: spawning and cancelling take
effect synchronously on the shared state; awaiting a spawn handle reads the
channel (a closed-without-send channel hits the
`Err(e) => panic!("unexpected error")` branch of `Scope::spawn`'s handle). -/
def pollFut : Fut → ScopeSt → PollRes × ScopeSt
  | .ret v, s => (.ready v, s)
  | .yield f, s => (.pending f, s)
  | .termSet v f, s => pollFut f (setCancelled s v)
  | .spawnE child k, s => pollFut (k s.chans.length) (spawnJob s child)
  | .recvE ch k, s =>
    match chanAt s ch with
    | some .open => (.pending (.recvE ch k), s)
    | some (.sent v) => pollFut (k v) (setChan s ch .consumed)
    | some .consumed => (.panicked, s)
    | some .closedNoSend => (.panicked, s)
    | some .rxDropped => (.panicked, s)
    | none => (.panicked, s)
  | .dropH ch f, s => pollFut f (setChan s ch .rxDropped)
  | .panic, s => (.panicked, s)

/-- Deliver a completed job's value on its channel.  On an open channel this
is the successful `tx.send(v)`; if the receiving handle was dropped the send
fails and is ignored (`let _ = tx.send(v).await`). -/
def sendVal (s : ScopeSt) (ch : Nat) (v : Val) : ScopeSt :=
  match chanAt s ch with
  | some .open => setChan s ch (.sent v)
  | some .rxDropped => s
  | _ => s

/-- Outcome of one pass of the inner
`while let Some(()) = ready!(futures.poll_next(cx))` loop of
`Scope::poll_jobs`. -/
inductive PassRes : Type where
  | pendingAll : ScopeSt → PassRes
  | drainedPass : ScopeSt → PassRes
  | cancelDetected : ScopeSt → PassRes
  | panicked : ScopeSt → PassRes

/-- One pass over the merged task set: poll each job once, in order.  A job
that completes is removed and its value sent; after each observed completion
the cancellation slot is checked, and if populated the pass stops (the
not-yet-polled tail keeps its state), like the `continue 'outer` in
`Scope::poll_jobs`.  If every job polled is pending the overall poll is
`Pending` (the `ready!` propagation). -/
def drivePass : List Job → List Job → ScopeSt → PassRes
  | [], kept, s =>
    if kept.isEmpty then .drainedPass s else .pendingAll { s with active := kept }
  | j :: rest, kept, s =>
    match pollFut j.code s with
    | (.panicked, s1) => .panicked s1
    | (.pending f1, s1) => drivePass rest (kept ++ [⟨f1, j.chan⟩]) s1
    | (.ready v, s1) =>
      let s2 := sendVal s1 j.chan v
      if s2.cancelled.isSome then .cancelDetected { s2 with active := kept ++ rest }
      else drivePass rest kept s2

/-- Result of `Scope::poll_jobs`: `pending` ↔ `Poll::Pending`,
`drained` ↔ `Ready(Ok(()))` / `Ready(None)` (all jobs completed),
`terminated v` ↔ the cancellation branch (`Ready(Err(v))` / `Ready(Some(v))`).
`outOfFuel` marks executions longer than the supplied bound. -/
inductive JobsRes : Type where
  | pending : ScopeSt → JobsRes
  | drained : ScopeSt → JobsRes
  | terminated : Val → ScopeSt → JobsRes
  | panicked : ScopeSt → JobsRes
  | outOfFuel : ScopeSt → JobsRes

/-- The drive loop `Scope::poll_jobs`.  Each iteration of the Rust outer loop first takes
the cancellation slot if populated, then merges `enqueued` into `futures`,
then runs one pass; a pass that drained everything loops again if new jobs
were enqueued meanwhile.  `fuel` bounds the number of `'outer` iterations. -/
def pollJobs : Nat → ScopeSt → JobsRes
  | 0, s => .outOfFuel s
  | fuel + 1, s =>
    match s.cancelled with
    | some c => .terminated c { s with cancelled := none }
    | none =>
      match drivePass (s.active ++ s.incoming) [] { s with active := [], incoming := [] } with
      | .panicked s1 => .panicked s1
      | .pendingAll s1 => .pending s1
      | .cancelDetected s1 => pollJobs fuel s1
      | .drainedPass s1 =>
        if s1.incoming.isEmpty then .drained s1 else pollJobs fuel s1

/-- The join driver's state (`Body` in `body.rs`): the optional body future,
the stored body result, and the shared scope state (the `Arc<Scope>`). -/
structure BodySt : Type where
  body_future : Option Fut
  result : Option Val
  scope : ScopeSt

/-- First half of `Body::poll`: if the body future is still present, poll it;
on completion store its result and clear the future.  `none` signals a panic
propagating out of the body. -/
def bodyStep (b : BodySt) : Option (Option Fut × Option Val × ScopeSt) :=
  match b.body_future with
  | none => some (none, b.result, b.scope)
  | some f =>
    match pollFut f b.scope with
    | (.ready r, s1) => some (none, some r, s1)
    | (.pending f1, s1) => some (some f1, b.result, s1)
    | (.panicked, _) => none

/-- Result of one `Body::poll`. -/
inductive BodyRes : Type where
  | ready : Val → BodySt → BodyRes
  | pending : BodySt → BodyRes
  | panicked : BodyRes
  | outOfFuel : BodyRes

/-- The join driver `Body::poll`: poll the body future, then drive the task set.  A
`terminated` drive resolves immediately with the termination value (the
stored result stays behind, discarded); a `drained` drive resolves with the
taken body result if available; otherwise the driver stays pending. -/
def bodyPoll (fuel : Nat) (b : BodySt) : BodyRes :=
  match bodyStep b with
  | none => .panicked
  | some (bf, res, s) =>
    match pollJobs fuel s with
    | .terminated v s1 => .ready v ⟨bf, res, s1⟩
    | .drained s1 =>
      match res with
      | some v => .ready v ⟨bf, none, s1⟩
      | none => .pending ⟨bf, none, s1⟩
    | .pending s1 => .pending ⟨bf, res, s1⟩
    | .panicked _ => .panicked
    | .outOfFuel _ => .outOfFuel

/-- Overall outcome of repeatedly polling the join driver. -/
inductive RunRes : Type where
  | done : Val → RunRes
  | stillPending : RunRes
  | panicked : RunRes
  | outOfFuel : RunRes
deriving DecidableEq, Repr

/-- Repeatedly poll the join driver (the external executor), up to `steps`
polls, each with `fuel` bounding the drive loop. -/
def runScope : Nat → Nat → BodySt → RunRes
  | 0, _, _ => .stillPending
  | steps + 1, fuel, b =>
    match bodyPoll fuel b with
    | .ready v _ => .done v
    | .pending b1 => runScope steps fuel b1
    | .panicked => .panicked
    | .outOfFuel => .outOfFuel

/-- The driver state a scope starts in: body future present, no stored
result, empty scope state (`scope_fn`). -/
def initSt (body : Fut) : BodySt := ⟨some body, none, emptyScope⟩

/-- Sequencing of futures; used to build the `spawn_cancelling` adapter,
which is the child future followed by a match on its result. -/
def Fut.bind : Fut → (Val → Fut) → Fut
  | .ret v, k => k v
  | .yield f, k => .yield (f.bind k)
  | .termSet v f, k => .termSet v (f.bind k)
  | .spawnE child kk, k => .spawnE child (fun n => (kk n).bind k)
  | .recvE ch kk, k => .recvE ch (fun v => (kk v).bind k)
  | .dropH ch f, k => .dropH ch (f.bind k)
  | .panic, _ => .panic

/-- Model of `scope.cancel(v).await`: store `v` in the slot (first write wins), spawn
the `async { panic!() }` job on a fresh channel, and await that job's handle
— the never-resolving await.  `k` is the (unreachable) code after the
await. -/
def cancelAwait (v : Val) (k : Val → Fut) : Fut :=
  .termSet v (.spawnE .panic (fun ch => .recvE ch k))

/-- Model of a dropped `scope.cancel(v)` handle — the slot store and the spawn of the panic
job still happen synchronously, but the returned handle is dropped instead of
awaited, and execution continues with `k`. -/
def cancelDrop (v : Val) (k : Fut) : Fut :=
  .termSet v (.spawnE .panic (fun ch => .dropH ch k))

/-- The continuation the `spawn_cancelling` adapter applies to the child's
result: `Ok(v)` completes the adapter with `v` (so the engine sends `v`
normally, exactly as for `spawn`); `Err(e)` calls `cancel` with the scope's
error result and awaits the never-resolving handle, so nothing is sent.
(`scope.rs` stores the cancellation value that the public scope future
surfaces as `Err(e)`; in this single-result-type model the slot holds the
scope's final result, hence `.err e`.) -/
def cancellingCont : Val → Fut
  | .ok v => .ret v
  | .err e => cancelAwait (.err e) (fun _ => .ret .unit)
  | v => .ret v

/-- Model of `Scope::spawn_cancelling`: enqueue the adapted child and continue with
the fresh handle's channel id. -/
def spawnCancelling (child : Fut) (k : Nat → Fut) : Fut :=
  .spawnE (child.bind cancellingCont) k

/-- Is channel index `i` the result channel of one of `jobs`? -/
def ownsChan (jobs : List Job) (i : Nat) : Bool :=
  jobs.any (fun j => j.chan == i)

/-- Dropping a list of jobs drops their channel senders: every still-open
channel owned by a dropped job becomes closed-without-send. -/
def closeDropped (jobs : List Job) (chans : List ChanSt) : List ChanSt :=
  (List.zip (List.range chans.length) chans).map
    (fun p =>
      match p.2 with
      | .open => if ownsChan jobs p.1 then .closedNoSend else .open
      | c => c)

/-- Model of `Scope::clear`: drop every pending job (`futures.clear()` and
`enqueued.clear()`); their channel senders are dropped with them. -/
def clearScope (s : ScopeSt) : ScopeSt :=
  { active := [], incoming := [],
    cancelled := s.cancelled,
    chans := closeDropped (s.active ++ s.incoming) s.chans }

/-- Model of `Body::clear`: drop the body future, drop the stored result, then clear
the scope's pending jobs — everything that may reference the scope is gone
after this returns. -/
def bodyClear (b : BodySt) : BodySt := ⟨none, none, clearScope b.scope⟩

/-- The discard events of the join driver's teardown, in the order they
happen: `PinnedDrop::drop` runs `Body::clear` (body future, then stored
result, then the scope's pending jobs), and only afterwards does the field
drop glue release the `Arc<Scope>` reference. -/
inductive TearEvt : Type where
  | dropBodyFuture : TearEvt
  | dropResult : TearEvt
  | dropPendingTasks : TearEvt
  | dropScopeRef : TearEvt
deriving DecidableEq, Repr

/-- The teardown order of `Body` (drop of the join driver). -/
def bodyDropOrder : List TearEvt :=
  [.dropBodyFuture, .dropResult, .dropPendingTasks, .dropScopeRef]

/-- State carried by a pass outcome. -/
def PassRes.st : PassRes → ScopeSt
  | .pendingAll s => s
  | .drainedPass s => s
  | .cancelDetected s => s
  | .panicked s => s

/-- State carried by a drive outcome. -/
def JobsRes.st : JobsRes → ScopeSt
  | .pending s => s
  | .drained s => s
  | .terminated _ s => s
  | .panicked s => s
  | .outOfFuel s => s

/-- Scenario body (termination precedence): the body calls
`scope.cancel("stop")` without awaiting the handle and then completes with
`"b"` in the same drive cycle. -/
def scBody2 : Fut := .termSet (.str "stop") (.ret (.str "b"))

/-- Scenario body (first write wins): `terminate(1)` then `terminate(2)`,
both handles dropped, before any drive cycle. -/
def scBody3 : Fut := cancelDrop (.nat 1) (cancelDrop (.nat 2) (.ret .unit))

/-- Late-spawn scenario, task B: suspends once, then completes with `2`. -/
def scTaskB : Fut := .yield (.ret (.nat 2))

/-- Late-spawn scenario, task A: spawns its sibling B right before
finishing. -/
def scTaskA : Fut := .spawnE scTaskB (fun _ => .ret (.nat 1))

/-- Late-spawn scenario body: spawns A and returns. -/
def scBody4 : Fut := .spawnE scTaskA (fun _ => .ret .unit)

/-- Driver state after the first poll of the late-spawn scenario: the body
and A are done (A's value `1` delivered on channel 0), B was admitted in the
same drive call and is still outstanding, so the scope has not resolved. -/
def scBody4Mid : BodySt :=
  ⟨none, some .unit, ⟨[⟨.ret (.nat 2), 1⟩], [], none, [.sent (.nat 1), .open]⟩⟩

/-- Driver state once the late-spawn scenario resolves: B has completed and
delivered `2` on channel 1. -/
def scBody4End : BodySt :=
  ⟨none, none, ⟨[], [], none, [.sent (.nat 1), .sent (.nat 2)]⟩⟩

/-- Cancelling-propagation scenario: a slow task that would complete
successfully (with `1`) after six polls. -/
def scTaskSlow : Fut :=
  .yield (.yield (.yield (.yield (.yield (.ret (.nat 1))))))

/-- Cancelling-propagation scenario: the fallible task, failing with
`Err("boom")` on its second poll. -/
def scTaskErr : Fut := .yield (.ret (.err (.str "boom")))

/-- Cancelling-propagation scenario body: spawns the slow task with `spawn`
and the fallible one with `spawn_cancelling`. -/
def scBody6 : Fut :=
  .spawnE scTaskSlow (fun _ => spawnCancelling scTaskErr (fun _ => .ret .unit))

/-- Control scenario: only the slow task, which the scope then waits for. -/
def scBody6Only : Fut := .spawnE scTaskSlow (fun _ => .ret .unit)

/-- Mid-resumption canceller: stores `7` in the slot and then suspends (it
does not complete). -/
def c7CancelTask : Fut := .termSet (.nat 7) (.yield (.ret .unit))

/-- Drive state with the canceller followed by a task that completes, so the
pass observes a completion after the slot became populated. -/
def c7St : ScopeSt :=
  ⟨[⟨c7CancelTask, 0⟩, ⟨.ret (.nat 0), 1⟩], [], none, [.open, .open]⟩

/-- The state `pollJobs` leaves behind when driving `c7St`: the canceller was
abandoned mid-pass (still pending), the completer's value was delivered, and
the slot was taken. -/
def c7StEnd : ScopeSt :=
  ⟨[⟨.ret .unit, 0⟩], [], none, [.open, .sent (.nat 0)]⟩

/-- The state in which the pass over `c7St` detects the populated slot: the
canceller is pending, the completer's value was delivered, slot still set. -/
def c7StMidWit : ScopeSt :=
  ⟨[⟨.ret .unit, 0⟩], [], some (.nat 7), [.open, .sent (.nat 0)]⟩

/-- Like `c7St` with a third task after the completer; the pass must stop
before resuming it. -/
def c7StB : ScopeSt :=
  ⟨[⟨c7CancelTask, 0⟩, ⟨.ret (.nat 0), 1⟩, ⟨.yield (.ret (.nat 9)), 2⟩],
   [], none, [.open, .open, .open]⟩

/-- Result state for `c7StB`: the third task's code is untouched (it was
never resumed after the slot-populated completion was observed). -/
def c7StBEnd : ScopeSt :=
  ⟨[⟨.ret .unit, 0⟩, ⟨.yield (.ret (.nat 9)), 2⟩],
   [], none, [.open, .sent (.nat 0), .open]⟩

/-- Canceller followed only by a pending task: no completion is observed
after the slot is populated, so the drive call suspends. -/
def c7StC : ScopeSt :=
  ⟨[⟨c7CancelTask, 0⟩, ⟨.yield (.yield (.ret .unit)), 1⟩],
   [], none, [.open, .open]⟩

/-- Suspended state after driving `c7StC`: the slot is still populated and is
taken on the next drive call. -/
def c7StCMid : ScopeSt :=
  ⟨[⟨.ret .unit, 0⟩, ⟨.yield (.ret .unit), 1⟩],
   [], some (.nat 7), [.open, .open]⟩

/-- Dropped-handle scenario body: spawns a task that suspends once and then
completes with `5`, immediately drops the spawn handle, and returns `0`. -/
def scBody10 : Fut :=
  .spawnE (.yield (.ret (.nat 5))) (fun ch => .dropH ch (.ret (.nat 0)))

/-- Driver state after the first poll of the dropped-handle scenario: the
spawned task is still outstanding and its channel's receiver is gone. -/
def scBody10Mid : BodySt :=
  ⟨none, some (.nat 0), ⟨[⟨.ret (.nat 5), 0⟩], [], none, [.rxDropped]⟩⟩

/-- Driver state once the dropped-handle scenario resolves: the task ran to
completion, its failed send was ignored, and the scope resolved with the
body's result. -/
def scBody10End : BodySt := ⟨none, none, ⟨[], [], none, [.rxDropped]⟩⟩

@[simp] theorem setCancelled_active (s : ScopeSt) (v : Val) :
    (setCancelled s v).active = s.active := by
  unfold setCancelled; split <;> rfl

@[simp] theorem setCancelled_chans (s : ScopeSt) (v : Val) :
    (setCancelled s v).chans = s.chans := by
  unfold setCancelled; split <;> rfl

@[simp] theorem setCancelled_incoming (s : ScopeSt) (v : Val) :
    (setCancelled s v).incoming = s.incoming := by
  unfold setCancelled; split <;> rfl

theorem setCancelled_isSome (s : ScopeSt) (v : Val) :
    (setCancelled s v).cancelled.isSome := by
  unfold setCancelled
  cases h : s.cancelled <;> simp [h]

@[simp] theorem setChan_active (s : ScopeSt) (ch : Nat) (c : ChanSt) :
    (setChan s ch c).active = s.active := rfl

@[simp] theorem spawnJob_active (s : ScopeSt) (child : Fut) :
    (spawnJob s child).active = s.active := rfl

@[simp] theorem sendVal_active (s : ScopeSt) (ch : Nat) (v : Val) :
    (sendVal s ch v).active = s.active := by
  unfold sendVal; split <;> rfl

/-- Polling a future never touches the `futures` collection itself: tasks
only enqueue into `incoming`, mutate channels, or write the slot. -/
theorem pollFut_active (f : Fut) (s : ScopeSt) :
    ((pollFut f s).2).active = s.active := by
  induction f generalizing s with
  | ret v => rfl
  | yield f => rfl
  | termSet v f ih => simpa [pollFut] using ih (setCancelled s v)
  | spawnE child k ihc ihk => simpa [pollFut] using ihk s.chans.length (spawnJob s child)
  | recvE ch k ih =>
    unfold pollFut
    cases h : chanAt s ch with
    | none => rfl
    | some c =>
      cases c with
      | sent v => simpa using ih v (setChan s ch .consumed)
      | _ => rfl
  | dropH ch f ih => simpa [pollFut] using ih (setChan s ch .rxDropped)
  | panic => rfl

/-- A pass that drains the task set leaves the `futures` collection exactly
as it found it (empty, in the drive loop's usage). -/
theorem drivePass_drained_active (q kept : List Job) (s s1 : ScopeSt)
    (h : drivePass q kept s = .drainedPass s1) : s1.active = s.active := by
  induction q generalizing kept s with
  | nil =>
    unfold drivePass at h
    by_cases hk : kept.isEmpty <;> simp [hk] at h
    exact h ▸ rfl
  | cons j rest ih =>
    unfold drivePass at h
    cases hp : pollFut j.code s with
    | mk r s1' =>
      cases r with
      | panicked => simp [hp] at h
      | pending f1 =>
        simp [hp] at h
        have hrec := ih (kept ++ [⟨f1, j.chan⟩]) s1' h
        have ha : s1'.active = s.active := by
          have := pollFut_active j.code s; rw [hp] at this; exact this
        rw [hrec, ha]
      | ready v =>
        simp [hp] at h
        by_cases hc : (sendVal s1' j.chan v).cancelled.isSome <;> simp [hc] at h
        have := ih kept (sendVal s1' j.chan v) h
        have ha : s1'.active = s.active := by
          have := pollFut_active j.code s; rw [hp] at this; exact this
        simp [sendVal_active] at this
        rw [this, ha]

/-- Whenever the drive loop reports `Drained`, both the `futures` collection
and the `enqueued` queue of the resulting state are empty: no spawned task —
including any task spawned during the drive passes themselves — is still
outstanding. -/
theorem pollJobs_drained_empty (fuel : Nat) (s s1 : ScopeSt)
    (h : pollJobs fuel s = .drained s1) : s1.active = [] ∧ s1.incoming = [] := by
  induction fuel generalizing s with
  | zero => simp [pollJobs] at h
  | succ fuel ih =>
    obtain ⟨act, inc, canc, chs⟩ := s
    unfold pollJobs at h
    cases canc with
    | some c => simp at h
    | none =>
      cases hd : drivePass (act ++ inc) [] ⟨[], [], none, chs⟩ with
      | pendingAll s2 => simp [hd] at h
      | panicked s2 => simp [hd] at h
      | cancelDetected s2 =>
        simp only [hd] at h
        exact ih s2 h
      | drainedPass s2 =>
        simp only [hd] at h
        by_cases he : s2.incoming.isEmpty
        · simp [he] at h
          have ha := drivePass_drained_active _ _ _ _ hd
          subst h
          constructor
          · simpa using ha
          · simpa [List.isEmpty_iff] using he
        · simp [he] at h
          exact ih s2 h

/-- Polling a sequenced future first polls the prefix; a completion of the
prefix continues synchronously into the continuation, a suspension keeps the
sequencing in place. -/
theorem pollFut_bind (f : Fut) (k : Val → Fut) (s : ScopeSt) :
    pollFut (f.bind k) s =
      match pollFut f s with
      | (.ready v, s1) => pollFut (k v) s1
      | (.pending f1, s1) => (.pending (f1.bind k), s1)
      | (.panicked, s1) => (.panicked, s1) := by
  induction f generalizing s with
  | ret v => rfl
  | yield f => rfl
  | termSet v f ih => simpa [Fut.bind, pollFut] using ih (setCancelled s v)
  | spawnE child kk ihc ihk =>
    simpa [Fut.bind, pollFut] using ihk s.chans.length (spawnJob s child)
  | recvE ch kk ih =>
    simp only [Fut.bind, pollFut]
    cases h : chanAt s ch with
    | none => rfl
    | some c =>
      cases c with
      | sent v => simpa using ih v (setChan s ch .consumed)
      | _ => rfl
  | dropH ch f ih => simpa [Fut.bind, pollFut] using ih (setChan s ch .rxDropped)
  | panic => rfl

/-- Invariant: no result channel is in the closed-without-send state.  The
engine itself never puts a channel there; only `Scope::clear` (teardown)
does. -/
def NoCNS (s : ScopeSt) : Prop := ChanSt.closedNoSend ∉ s.chans

theorem NoCNS_setChan (s : ScopeSt) (ch : Nat) (c : ChanSt)
    (hc : c ≠ ChanSt.closedNoSend) (h : NoCNS s) : NoCNS (setChan s ch c) := by
  intro hmem
  rcases List.mem_or_eq_of_mem_set hmem with hm | he
  · exact h hm
  · exact hc he.symm

theorem NoCNS_spawnJob (s : ScopeSt) (child : Fut)
    (h : NoCNS s) : NoCNS (spawnJob s child) := by
  intro hmem
  rcases List.mem_append.mp hmem with hm | hm
  · exact h hm
  · simp at hm

theorem NoCNS_setCancelled (s : ScopeSt) (v : Val)
    (h : NoCNS s) : NoCNS (setCancelled s v) := by
  unfold NoCNS
  rw [setCancelled_chans]
  exact h

theorem NoCNS_sendVal (s : ScopeSt) (ch : Nat) (v : Val)
    (h : NoCNS s) : NoCNS (sendVal s ch v) := by
  unfold sendVal
  split
  · exact NoCNS_setChan s ch (.sent v) (by simp) h
  · exact h
  · exact h

/-- Polling any task never closes a channel without a send. -/
theorem NoCNS_pollFut (f : Fut) (s : ScopeSt)
    (h : NoCNS s) : NoCNS (pollFut f s).2 := by
  induction f generalizing s with
  | ret v => exact h
  | yield f => exact h
  | termSet v f ih =>
    simpa [pollFut] using ih (setCancelled s v) (NoCNS_setCancelled s v h)
  | spawnE child k ihc ihk =>
    simpa [pollFut] using
      ihk s.chans.length (spawnJob s child) (NoCNS_spawnJob s child h)
  | recvE ch k ih =>
    unfold pollFut
    cases hc : chanAt s ch with
    | none => exact h
    | some c =>
      cases c with
      | sent v =>
        simpa using ih v (setChan s ch .consumed)
          (NoCNS_setChan s ch .consumed (by simp) h)
      | _ => exact h
  | dropH ch f ih =>
    simpa [pollFut] using ih (setChan s ch .rxDropped)
      (NoCNS_setChan s ch .rxDropped (by simp) h)
  | panic => exact h

/-- One drive pass never closes a channel without a send. -/
theorem NoCNS_drivePass (q kept : List Job) (s : ScopeSt)
    (h : NoCNS s) : NoCNS (drivePass q kept s).st := by
  induction q generalizing kept s with
  | nil =>
    unfold drivePass
    by_cases hk : kept.isEmpty <;> simp [hk, PassRes.st] <;> exact h
  | cons j rest ih =>
    unfold drivePass
    cases hp : pollFut j.code s with
    | mk r s1 =>
      have h1 : NoCNS s1 := by
        have := NoCNS_pollFut j.code s h; rw [hp] at this; exact this
      cases r with
      | panicked => exact h1
      | pending f1 => exact ih (kept ++ [⟨f1, j.chan⟩]) s1 h1
      | ready v =>
        simp only []
        by_cases hc : (sendVal s1 j.chan v).cancelled.isSome <;> simp [hc, PassRes.st]
        · exact NoCNS_sendVal s1 j.chan v h1
        · exact ih kept (sendVal s1 j.chan v) (NoCNS_sendVal s1 j.chan v h1)

/-- The drive loop never closes a channel without a send: under normal
operation (no teardown) the closed-without-send receive branch can never be
reached. -/
theorem NoCNS_pollJobs (fuel : Nat) (s : ScopeSt)
    (h : NoCNS s) : NoCNS (pollJobs fuel s).st := by
  induction fuel generalizing s with
  | zero => exact h
  | succ fuel ih =>
    obtain ⟨act, inc, canc, chs⟩ := s
    unfold pollJobs
    cases canc with
    | some c => exact h
    | none =>
      have hbase : NoCNS (⟨[], [], none, chs⟩ : ScopeSt) := h
      cases hd : drivePass (act ++ inc) [] ⟨[], [], none, chs⟩ with
      | pendingAll s2 =>
        have := NoCNS_drivePass (act ++ inc) [] ⟨[], [], none, chs⟩ hbase
        rw [hd] at this
        exact this
      | panicked s2 =>
        have := NoCNS_drivePass (act ++ inc) [] ⟨[], [], none, chs⟩ hbase
        rw [hd] at this
        exact this
      | cancelDetected s2 =>
        have h2 : NoCNS s2 := by
          have := NoCNS_drivePass (act ++ inc) [] ⟨[], [], none, chs⟩ hbase
          rw [hd] at this
          exact this
        simpa using ih s2 h2
      | drainedPass s2 =>
        have h2 : NoCNS s2 := by
          have := NoCNS_drivePass (act ++ inc) [] ⟨[], [], none, chs⟩ hbase
          rw [hd] at this
          exact this
        by_cases he : s2.incoming.isEmpty <;> simp [he, JobsRes.st]
        · exact h2
        · simpa using ih s2 h2

/-- A pass only reports the cancellation-detected outcome when the slot is
actually populated in the state it hands back. -/
theorem drivePass_cancelDetected_isSome (q kept : List Job) (s s1 : ScopeSt)
    (h : drivePass q kept s = .cancelDetected s1) : s1.cancelled.isSome := by
  induction q generalizing kept s with
  | nil =>
    unfold drivePass at h
    by_cases hk : kept.isEmpty <;> simp [hk] at h
  | cons j rest ih =>
    unfold drivePass at h
    cases hp : pollFut j.code s with
    | mk r s2 =>
      cases r with
      | panicked => simp [hp] at h
      | pending f1 =>
        simp only [hp] at h
        exact ih (kept ++ [⟨f1, j.chan⟩]) s2 h
      | ready v =>
        simp only [hp] at h
        by_cases hc : (sendVal s2 j.chan v).cancelled.isSome
        · simp only [hc, if_pos] at h
          cases h
          exact hc
        · simp only [hc] at h
          simp only [Bool.false_eq_true, if_false] at h
          exact ih kept (sendVal s2 j.chan v) h

/-- Claim C1 (join completeness): whenever the join driver resolves, it does
so either because the task-set drive reported `Terminated`, or because the
drive reported `Drained` — in which case both the active set and the incoming
queue are empty (no task spawned up to that point is still outstanding) and
the resolved value is the stored body result. -/
theorem join_completeness (fuel : Nat) (b : BodySt) (v : Val) (b1 : BodySt)
    (h : bodyPoll fuel b = .ready v b1) :
    (∃ bf res s s1, bodyStep b = some (bf, res, s) ∧
        pollJobs fuel s = .terminated v s1 ∧ b1 = ⟨bf, res, s1⟩) ∨
    (∃ bf s s1, bodyStep b = some (bf, some v, s) ∧
        pollJobs fuel s = .drained s1 ∧
        s1.active = [] ∧ s1.incoming = [] ∧ b1 = ⟨bf, none, s1⟩) := by
  unfold bodyPoll at h
  cases hs : bodyStep b with
  | none => simp [hs] at h
  | some t =>
    obtain ⟨bf, res, s⟩ := t
    simp only [hs] at h
    cases hj : pollJobs fuel s with
    | terminated w s1 =>
      simp only [hj] at h
      cases h
      exact Or.inl ⟨bf, res, s, s1, rfl, hj, rfl⟩
    | drained s1 =>
      simp only [hj] at h
      cases hr : res with
      | none => simp [hr] at h
      | some w =>
        subst hr
        cases h
        obtain ⟨ha, hi⟩ := pollJobs_drained_empty fuel s s1 hj
        exact Or.inr ⟨bf, s, s1, rfl, hj, ha, hi, rfl⟩
    | pending s1 => simp [hj] at h
    | panicked s1 => simp [hj] at h
    | outOfFuel s1 => simp [hj] at h

/-- Witness for C1 at a concrete resolving scope. -/
theorem join_completeness_witness :
    (∃ bf res s s1, bodyStep (initSt (.ret (.nat 42))) = some (bf, res, s) ∧
        pollJobs 1 s = .terminated (.nat 42) s1 ∧
        (⟨none, none, emptyScope⟩ : BodySt) = ⟨bf, res, s1⟩) ∨
    (∃ bf s s1, bodyStep (initSt (.ret (.nat 42))) = some (bf, some (.nat 42), s) ∧
        pollJobs 1 s = .drained s1 ∧
        s1.active = [] ∧ s1.incoming = [] ∧
        (⟨none, none, emptyScope⟩ : BodySt) = ⟨bf, none, s1⟩) :=
  join_completeness 1 (initSt (.ret (.nat 42))) (.nat 42) ⟨none, none, emptyScope⟩ rfl

/-- Claim C2 (termination precedence): whenever the task-set drive reports
`Terminated(v)`, the join driver resolves immediately with `v`, leaving any
stored body result behind unused; in particular the scenario whose body calls
`terminate("stop")` and completes with `"b"` in the same drive cycle resolves
with `"stop"`. -/
theorem termination_precedence (fuel : Nat) (b : BodySt) (bf : Option Fut)
    (res : Option Val) (s : ScopeSt) (v : Val) (s1 : ScopeSt)
    (h1 : bodyStep b = some (bf, res, s))
    (h2 : pollJobs fuel s = .terminated v s1) :
    bodyPoll fuel b = .ready v ⟨bf, res, s1⟩ ∧
    runScope 5 5 (initSt scBody2) = .done (.str "stop") := by
  refine ⟨?_, rfl⟩
  unfold bodyPoll
  simp [h1, h2]

/-- Witness for C2: the body stored result `"b"` while the slot held
`"stop"`; the scope resolves with `"stop"`. -/
theorem termination_precedence_witness :
    bodyPoll 1 (initSt scBody2) =
      .ready (.str "stop") ⟨none, some (.str "b"), emptyScope⟩ ∧
    runScope 5 5 (initSt scBody2) = .done (.str "stop") :=
  termination_precedence 1 (initSt scBody2) none (some (.str "b"))
    ⟨[], [], some (.str "stop"), []⟩ (.str "stop") emptyScope rfl rfl

/-- Claim C3 (first-write-wins termination slot): the first `terminate`
stores its value; a second `terminate`, even with a different value, leaves
the slot unchanged; and the scenario `terminate(1); terminate(2)` before any
drive cycle resolves the scope with `1`. -/
theorem terminate_first_write_wins (s : ScopeSt) (v1 v2 : Val)
    (h : s.cancelled = none) :
    (setCancelled s v1).cancelled = some v1 ∧
    (setCancelled (setCancelled s v1) v2).cancelled = some v1 ∧
    runScope 5 5 (initSt scBody3) = .done (.nat 1) := by
  refine ⟨?_, ?_, rfl⟩ <;> simp [setCancelled, h]

/-- Witness for C3 on the empty scope state. -/
theorem terminate_first_write_wins_witness :
    (setCancelled emptyScope (.nat 1)).cancelled = some (.nat 1) ∧
    (setCancelled (setCancelled emptyScope (.nat 1)) (.nat 2)).cancelled =
      some (.nat 1) ∧
    runScope 5 5 (initSt scBody3) = .done (.nat 1) :=
  terminate_first_write_wins emptyScope (.nat 1) (.nat 2) rfl

/-- Claim C4 (late spawn admission): a drive call can only report `Drained`
once both the active set and the incoming queue are empty, so every task
spawned during the drive — by the body or by another task — was admitted and
completed first; in the concrete scenario where the body spawns A and A
spawns sibling B right before finishing, the scope stays pending while B is
outstanding and resolves only after B completes. -/
theorem late_spawn_admission (fuel : Nat) (s s1 : ScopeSt)
    (h : pollJobs fuel s = .drained s1) :
    (s1.active = [] ∧ s1.incoming = []) ∧
    bodyPoll 5 (initSt scBody4) = .pending scBody4Mid ∧
    bodyPoll 5 scBody4Mid = .ready .unit scBody4End :=
  ⟨pollJobs_drained_empty fuel s s1 h, rfl, rfl⟩

/-- Witness for C4 at a drained drive of the empty scope. -/
theorem late_spawn_admission_witness :
    (emptyScope.active = [] ∧ emptyScope.incoming = []) ∧
    bodyPoll 5 (initSt scBody4) = .pending scBody4Mid ∧
    bodyPoll 5 scBody4Mid = .ready .unit scBody4End :=
  late_spawn_admission 1 emptyScope emptyScope rfl

/-- Claim C5 (never-resolving terminate): polling the awaitable returned by
`terminate(v)` stores `v` (first write wins, so the slot is populated
afterwards in every case), enqueues the panic job on a freshly allocated open
channel, and suspends awaiting that channel.  Once the slot is populated, a
drive call takes it and returns `Terminated` without resuming any task — so
the panic job can never run, nothing is ever sent on the awaited channel, and
the awaiting task is never resumed with a value: if the body itself is the
awaiting task, the driver resolves by termination with the body's code (and
hence the code after the await) untouched. -/
theorem terminate_never_resolves
    (v : Val) (k : Val → Fut) (s : ScopeSt)
    (fuel : Nat) (w : Val) (sb : ScopeSt) (ch : Nat) (kb : Val → Fut)
    (res : Option Val)
    (h1 : sb.cancelled = some w)
    (h2 : chanAt sb ch = some .open) :
    pollFut (cancelAwait v k) s =
      (.pending (.recvE s.chans.length k), spawnJob (setCancelled s v) .panic) ∧
    (setCancelled s v).cancelled.isSome ∧
    chanAt (spawnJob (setCancelled s v) .panic) s.chans.length = some .open ∧
    pollJobs (fuel + 1) sb = .terminated w { sb with cancelled := none } ∧
    bodyPoll (fuel + 1) ⟨some (.recvE ch kb), res, sb⟩ =
      .ready w ⟨some (.recvE ch kb), res, { sb with cancelled := none }⟩ := by
  refine ⟨?_, setCancelled_isSome s v, ?_, ?_, ?_⟩
  · simp only [cancelAwait, pollFut, setCancelled_chans]
    have hfresh :
        chanAt (spawnJob (setCancelled s v) .panic) s.chans.length = some .open := by
      simp [chanAt, spawnJob]
    simp [hfresh]
  · simp [chanAt, spawnJob]
  · unfold pollJobs
    simp [h1]
  · unfold bodyPoll bodyStep
    simp only [pollFut, h2]
    unfold pollJobs
    simp [h1]

/-- Witness for C5 with the slot holding `9` and the panic-job channel 0
open while the body awaits it. -/
theorem terminate_never_resolves_witness :
    pollFut (cancelAwait (.nat 5) (fun _ => .ret .unit)) emptyScope =
      (.pending (.recvE emptyScope.chans.length (fun _ => .ret .unit)),
       spawnJob (setCancelled emptyScope (.nat 5)) .panic) ∧
    (setCancelled emptyScope (.nat 5)).cancelled.isSome ∧
    chanAt (spawnJob (setCancelled emptyScope (.nat 5)) .panic)
      emptyScope.chans.length = some .open ∧
    pollJobs 1 (⟨[], [], some (.nat 9), [.open]⟩ : ScopeSt) =
      .terminated (.nat 9)
        { (⟨[], [], some (.nat 9), [.open]⟩ : ScopeSt) with cancelled := none } ∧
    bodyPoll 1
        ⟨some (.recvE 0 (fun _ => .ret .unit)), none,
         ⟨[], [], some (.nat 9), [.open]⟩⟩ =
      .ready (.nat 9)
        ⟨some (.recvE 0 (fun _ => .ret .unit)), none,
         { (⟨[], [], some (.nat 9), [.open]⟩ : ScopeSt) with cancelled := none }⟩ :=
  terminate_never_resolves (.nat 5) (fun _ => .ret .unit) emptyScope 0 (.nat 9)
    ⟨[], [], some (.nat 9), [.open]⟩ 0 (fun _ => .ret .unit) none rfl rfl

/-- Claim C6 (cancelling propagation): the `spawn_cancelling` adapter, on a
child completing with `Ok(x)`, completes with `x` so the engine delivers `x`
on its result channel exactly as for a plain `spawn`; on `Err(e)` it instead
stores the scope's `Err(e)` result in the termination slot (populating it),
spawns the panic job, and suspends forever — nothing is sent.  In the
concrete scenario the erroring task makes the whole scope resolve with
`Err("boom")` on its third poll, while the slow task — which alone would keep
the scope alive through six polls before a successful completion — is
abandoned and does not block termination. -/
theorem spawn_cancelling_propagation
    (child : Fut) (s s1 : ScopeSt) (x : Val)
    (child2 : Fut) (s2 s3 : ScopeSt) (e : Val)
    (hok : pollFut child s = (.ready (.ok x), s1))
    (herr : pollFut child2 s2 = (.ready (.err e), s3)) :
    pollFut (child.bind cancellingCont) s = (.ready x, s1) ∧
    pollFut (child2.bind cancellingCont) s2 =
      (.pending (.recvE s3.chans.length (fun _ => .ret .unit)),
       spawnJob (setCancelled s3 (.err e)) .panic) ∧
    (setCancelled s3 (.err e)).cancelled.isSome ∧
    runScope 3 9 (initSt scBody6) = .done (.err (.str "boom")) ∧
    runScope 2 9 (initSt scBody6) = .stillPending ∧
    runScope 6 9 (initSt scBody6Only) = .done .unit ∧
    runScope 5 9 (initSt scBody6Only) = .stillPending := by
  refine ⟨?_, ?_, setCancelled_isSome s3 (.err e), rfl, rfl, rfl, rfl⟩
  · rw [pollFut_bind, hok]
    rfl
  · rw [pollFut_bind, herr]
    simp only [cancellingCont, cancelAwait, pollFut, setCancelled_chans]
    have hfresh :
        chanAt (spawnJob (setCancelled s3 (.err e)) .panic) s3.chans.length =
          some .open := by
      simp [chanAt, spawnJob]
    simp [hfresh]

/-- Witness for C6 with immediate `Ok(3)` and `Err("z")` children. -/
theorem spawn_cancelling_propagation_witness :
    pollFut (Fut.bind (.ret (.ok (.nat 3))) cancellingCont) emptyScope =
      (.ready (.nat 3), emptyScope) ∧
    pollFut (Fut.bind (.ret (.err (.str "z"))) cancellingCont) emptyScope =
      (.pending (.recvE emptyScope.chans.length (fun _ => .ret .unit)),
       spawnJob (setCancelled emptyScope (.err (.str "z"))) .panic) ∧
    (setCancelled emptyScope (.err (.str "z"))).cancelled.isSome ∧
    runScope 3 9 (initSt scBody6) = .done (.err (.str "boom")) ∧
    runScope 2 9 (initSt scBody6) = .stillPending ∧
    runScope 6 9 (initSt scBody6Only) = .done .unit ∧
    runScope 5 9 (initSt scBody6Only) = .stillPending :=
  spawn_cancelling_propagation (.ret (.ok (.nat 3))) emptyScope emptyScope (.nat 3)
    (.ret (.err (.str "z"))) emptyScope emptyScope (.str "z") rfl rfl

/-- Counterexample to claim C7: starting from a state whose slot is empty,
the first task populates the slot mid-resumption and suspends, the second
task's completion is then observed with the slot populated — and the very
same `poll_jobs` call loops back to its top, takes the slot, and returns
`Terminated(7)`.  The drive does not wait for the next drive call, contrary
to the claim. -/
theorem deferred_termination_counterexample :
    c7St.cancelled = none ∧
    pollJobs 2 c7St = .terminated (.nat 7) c7StEnd :=
  ⟨rfl, rfl⟩

/-- Claim C7 as amended: when the slot becomes populated mid-resumption, the
pass stops resuming further tasks as soon as a task completion is observed
with the slot populated (in `c7StB` the third task's code is untouched in the
result), and the drive then takes the value at the top of its loop — within
the same drive call; only when no completion is observed after the slot is
populated does the call return `Pending`, with `Terminated` reported on the
next drive call (`c7StC`). -/
theorem deferred_termination_amended (fuel : Nat) (act inc : List Job)
    (chs : List ChanSt) (s1 : ScopeSt)
    (hd : drivePass (act ++ inc) [] ⟨[], [], none, chs⟩ = .cancelDetected s1) :
    (∃ c, s1.cancelled = some c ∧
        pollJobs (fuel + 2) ⟨act, inc, none, chs⟩ =
          .terminated c { s1 with cancelled := none }) ∧
    pollJobs 3 c7StB = .terminated (.nat 7) c7StBEnd ∧
    pollJobs 9 c7StC = .pending c7StCMid ∧
    c7StCMid.cancelled = some (.nat 7) ∧
    pollJobs 9 c7StCMid = .terminated (.nat 7) { c7StCMid with cancelled := none } := by
  refine ⟨?_, rfl, rfl, rfl, rfl⟩
  have hsome := drivePass_cancelDetected_isSome _ _ _ _ hd
  cases hc : s1.cancelled with
  | none => rw [hc] at hsome; simp at hsome
  | some c =>
    refine ⟨c, rfl, ?_⟩
    show pollJobs (fuel + 1 + 1) _ = _
    unfold pollJobs
    simp only [hd]
    unfold pollJobs
    simp [hc]

/-- Witness for the amended C7 at the two-task state `c7St`. -/
theorem deferred_termination_amended_witness :
    (∃ c, c7StMidWit.cancelled = some c ∧
        pollJobs 2 c7St = .terminated c { c7StMidWit with cancelled := none }) ∧
    pollJobs 3 c7StB = .terminated (.nat 7) c7StBEnd ∧
    pollJobs 9 c7StC = .pending c7StCMid ∧
    c7StCMid.cancelled = some (.nat 7) ∧
    pollJobs 9 c7StCMid = .terminated (.nat 7) { c7StCMid with cancelled := none } :=
  deferred_termination_amended 0
    [⟨c7CancelTask, 0⟩, ⟨.ret (.nat 0), 1⟩] [] [.open, .open] c7StMidWit rfl

/-- Claim C8 (closed-channel invariant violation): awaiting a spawn handle
whose channel was closed without a value delivered aborts loudly (the model's
panic outcome, the `panic!` branch of the handle), and under normal
operation that branch is unreachable: a state with no closed-without-send
channel can never reach one through the drive loop (only the teardown path
`Scope::clear` closes channels without a send), while an await on a live
channel either stays suspended (channel open) or yields the spawned task's
output (channel sent). -/
theorem closed_channel_invariant
    (s : ScopeSt) (ch : Nat) (k : Val → Fut)
    (fuel : Nat) (s0 : ScopeSt)
    (s2 : ScopeSt) (ch2 : Nat) (k2 : Val → Fut)
    (s3 : ScopeSt) (ch3 : Nat) (k3 : Val → Fut) (v : Val)
    (hcl : chanAt s ch = some .closedNoSend)
    (hinv : NoCNS s0)
    (hop : chanAt s2 ch2 = some .open)
    (hsv : chanAt s3 ch3 = some (.sent v)) :
    pollFut (.recvE ch k) s = (.panicked, s) ∧
    NoCNS (pollJobs fuel s0).st ∧
    pollFut (.recvE ch2 k2) s2 = (.pending (.recvE ch2 k2), s2) ∧
    pollFut (.recvE ch3 k3) s3 = pollFut (k3 v) (setChan s3 ch3 .consumed) :=
  ⟨by simp [pollFut, hcl], NoCNS_pollJobs fuel s0 hinv,
   by simp [pollFut, hop], by simp [pollFut, hsv]⟩

/-- Witness for C8 on singleton channel states. -/
theorem closed_channel_invariant_witness :
    pollFut (.recvE 0 (fun _ => .ret .unit)) (⟨[], [], none, [.closedNoSend]⟩ : ScopeSt) =
      (.panicked, (⟨[], [], none, [.closedNoSend]⟩ : ScopeSt)) ∧
    NoCNS (pollJobs 1 emptyScope).st ∧
    pollFut (.recvE 0 (fun _ => .ret .unit)) (⟨[], [], none, [.open]⟩ : ScopeSt) =
      (.pending (.recvE 0 (fun _ => .ret .unit)), (⟨[], [], none, [.open]⟩ : ScopeSt)) ∧
    pollFut (.recvE 0 (fun _ => .ret .unit)) (⟨[], [], none, [.sent (.nat 4)]⟩ : ScopeSt) =
      pollFut ((fun _ => .ret .unit) (Val.nat 4))
        (setChan (⟨[], [], none, [.sent (.nat 4)]⟩ : ScopeSt) 0 .consumed) :=
  closed_channel_invariant
    (⟨[], [], none, [.closedNoSend]⟩ : ScopeSt) 0 (fun _ => .ret .unit)
    1 emptyScope
    (⟨[], [], none, [.open]⟩ : ScopeSt) 0 (fun _ => .ret .unit)
    (⟨[], [], none, [.sent (.nat 4)]⟩ : ScopeSt) 0 (fun _ => .ret .unit) (.nat 4)
    rfl (by simp [NoCNS, emptyScope]) rfl rfl

/-- Claim C9 (teardown ordering): in the join driver's drop sequence the body
future, the stored result, and the pending spawned tasks are all discarded
strictly before the scope-data reference is dropped, and after `Body::clear`
runs there is no body future, no stored result, and no pending task left that
could still reference the scope. -/
theorem teardown_ordering (b : BodySt) :
    List.indexOf TearEvt.dropBodyFuture bodyDropOrder <
      List.indexOf TearEvt.dropScopeRef bodyDropOrder ∧
    List.indexOf TearEvt.dropResult bodyDropOrder <
      List.indexOf TearEvt.dropScopeRef bodyDropOrder ∧
    List.indexOf TearEvt.dropPendingTasks bodyDropOrder <
      List.indexOf TearEvt.dropScopeRef bodyDropOrder ∧
    (bodyClear b).body_future = none ∧
    (bodyClear b).result = none ∧
    (bodyClear b).scope.active = [] ∧
    (bodyClear b).scope.incoming = [] :=
  ⟨by decide, by decide, by decide, rfl, rfl, rfl, rfl⟩

/-- Claim C10 (dropped spawn handle): a send onto a channel whose receiver
was dropped is ignored without an error or any other state change, so the
spawned task is unaffected; in the concrete scenario the body drops its spawn
handle immediately, yet the task is still driven to completion in the next
drive cycle, the scope resolves normally with the body's result, no
termination fires, and the task's output is silently discarded. -/
theorem drop_handle_no_cancel (s : ScopeSt) (ch : Nat) (v : Val)
    (h : chanAt s ch = some .rxDropped) :
    sendVal s ch v = s ∧
    bodyPoll 5 (initSt scBody10) = .pending scBody10Mid ∧
    bodyPoll 5 scBody10Mid = .ready (.nat 0) scBody10End ∧
    scBody10End.scope.cancelled = none ∧
    scBody10End.scope.active = [] ∧
    chanAt scBody10End.scope 0 = some .rxDropped := by
  refine ⟨?_, rfl, rfl, rfl, rfl, rfl⟩
  unfold sendVal
  simp [h]

/-- Witness for C10 on a singleton receiver-dropped channel. -/
theorem drop_handle_no_cancel_witness :
    sendVal (⟨[], [], none, [.rxDropped]⟩ : ScopeSt) 0 (.nat 5) =
      (⟨[], [], none, [.rxDropped]⟩ : ScopeSt) ∧
    bodyPoll 5 (initSt scBody10) = .pending scBody10Mid ∧
    bodyPoll 5 scBody10Mid = .ready (.nat 0) scBody10End ∧
    scBody10End.scope.cancelled = none ∧
    scBody10End.scope.active = [] ∧
    chanAt scBody10End.scope 0 = some .rxDropped :=
  drop_handle_no_cancel (⟨[], [], none, [.rxDropped]⟩ : ScopeSt) 0 (.nat 5) rfl

end Moro
